import Mathlib

/-!
Formal model of the evaluation-aggregation and configuration-loading logic of
the llm-evals-cli / guardrails-dashboard project.

The development shallowly embeds, one Python function at a time:
* `calculate_run_summary` (guardrails-dashboard/dashboard.py, lines 196-230),
* the fleet aggregation of `get_dashboard_stats` (dashboard.py, lines 143-182),
* `load_policy` together with the pydantic validation of `EvaluationPolicy`
  (llm-evals-cli/evals/policy.py),
* the Ollama provider probes `list_models` / `is_available`
  (llm-evals-cli/evals/providers.py, lines 113-137),
* the run-discovery scan `get_recent_runs` (dashboard.py, lines 82-116).

JSON values read from disk are modelled by `JsonVal`; numbers are modelled by
`ℚ` (all numerals appearing in the programs are exact in ℚ); a JSON field that
is absent or `null` is modelled by `Option`.
-/

/-- One line of `results.jsonl`, restricted to the fields the dashboard reads.
`r.get("accuracy")`, `r.get("latency_ms")` and `r.get("toxicity")` yield `None`
both for an absent key and for a JSON `null`, so a single `Option` layer models
either; `blocked` is read via `r.get("blocked", False)`. -/
structure EvalRecord where
  accuracy : Option ℚ
  latency_ms : Option ℚ
  blocked : Option Bool
  toxicity : Option ℚ
deriving DecidableEq

/-- The dictionary returned by `calculate_run_summary`. -/
structure RunSummary where
  total_prompts : ℕ
  accuracy_rate : Option ℚ
  avg_latency_ms : Option ℚ
  blocked_count : ℕ
  avg_toxicity : Option ℚ
deriving DecidableEq

/-- Model of `GuardrailsHandler.calculate_run_summary` (dashboard.py 196-230).
The empty input is handled by the early return of lines 198-205.  In the
latency comprehension the Python default `r.get("latency_ms", 0)` is
unreachable because the comprehension filter already excludes records whose
`latency_ms` is `None`, so the comprehension is a `filterMap`. -/
def calculate_run_summary (results : List EvalRecord) : RunSummary :=
  if results = [] then
    ⟨0, none, none, 0, none⟩
  else
    let accuracy_results := results.filterMap EvalRecord.accuracy
    let latencies := results.filterMap EvalRecord.latency_ms
    let toxicities := results.filterMap EvalRecord.toxicity
    ⟨results.length,
     if accuracy_results = [] then none
       else some (accuracy_results.sum / accuracy_results.length),
     if latencies = [] then none else some (latencies.sum / latencies.length),
     results.countP (fun r => r.blocked.getD false),
     if toxicities = [] then none else some (toxicities.sum / toxicities.length)⟩

/-- Arithmetic mean of a list of rationals, `none` when the list is empty.
This is the specification-side notion of "mean of the non-null values". -/
def meanOpt (xs : List ℚ) : Option ℚ :=
  if xs = [] then none else some (xs.sum / xs.length)

/-- Record carrying only a latency, as in the spec scenario. -/
def latencyRecord (l : Option ℚ) : EvalRecord := ⟨none, l, none, none⟩

/-- Spec scenario input: 3 records with latencies 100, 200, null. -/
def latencyScenario : List EvalRecord :=
  [latencyRecord (some 100), latencyRecord (some 200), latencyRecord none]

/-- One element of the list returned by `get_recent_runs`: the `meta.json`
dictionary of a run, merged with the added `run_id` key and the optional added
`summary` key, restricted to the fields the dashboard later reads
(`total_prompts`, `start_time`, `summary`, `run_id`). -/
structure Run where
  run_id : String
  total_prompts : Option ℕ
  start_time : Option String
  summary : Option RunSummary
deriving DecidableEq

/-- One entry of the `recent_violations` list (dashboard.py 168-173). -/
structure Violation where
  run_id : String
  timestamp : Option String
  blocked_count : ℕ
  total_prompts : ℕ
deriving DecidableEq

/-- The dictionary returned by `get_dashboard_stats`. -/
structure FleetStats where
  total_runs : ℕ
  total_evaluations : ℕ
  avg_accuracy : ℚ
  avg_latency : ℚ
  violation_rate : ℚ
  recent_violations : List Violation
deriving DecidableEq

/-- Line 157: `sum(r.get("total_prompts", 0) for r in runs)`. -/
def fleet_total_evaluations (runs : List Run) : ℕ :=
  (runs.map (fun r => r.total_prompts.getD 0)).sum

/-- Line 160: per-run accuracy rates of the runs that carry a summary whose
`accuracy_rate` is not null. -/
def fleet_accuracies (runs : List Run) : List ℚ :=
  runs.filterMap (fun r => r.summary.bind RunSummary.accuracy_rate)

/-- Line 161: per-run average latencies of the runs that carry a summary whose
`avg_latency_ms` is not null. -/
def fleet_latencies (runs : List Run) : List ℚ :=
  runs.filterMap (fun r => r.summary.bind RunSummary.avg_latency_ms)

/-- Line 162: `blocked_count` of every run that carries a summary. -/
def fleet_blocked_counts (runs : List Run) : List ℕ :=
  (runs.filterMap Run.summary).map RunSummary.blocked_count

/-- Lines 165-173: among the first 5 runs, those with a summary whose
`blocked_count` is positive. -/
def recent_violations_of (runs : List Run) : List Violation :=
  (runs.take 5).filterMap (fun r =>
    match r.summary with
    | some s =>
        if 0 < s.blocked_count then
          some ⟨r.run_id, r.start_time, s.blocked_count, r.total_prompts.getD 0⟩
        else none
    | none => none)

/-- Model of `GuardrailsHandler.get_dashboard_stats` (dashboard.py 143-182),
taken as a function of the window of runs it aggregates (in the program the
window is `self.get_recent_runs(limit=50)`).  Lines 147-155 are the early
return for an empty window. -/
def dashboard_stats_of (runs : List Run) : FleetStats :=
  if runs = [] then
    ⟨0, 0, 0, 0, 0, []⟩
  else
    ⟨runs.length,
     fleet_total_evaluations runs,
     if fleet_accuracies runs = [] then 0
       else (fleet_accuracies runs).sum / (fleet_accuracies runs).length,
     if fleet_latencies runs = [] then 0
       else (fleet_latencies runs).sum / (fleet_latencies runs).length,
     if 0 < fleet_total_evaluations runs then
       ((fleet_blocked_counts runs).sum : ℚ) / (fleet_total_evaluations runs : ℚ)
     else 0,
     recent_violations_of runs⟩

/-- Specification-side total of per-run blocked counts: a run whose summary is
absent contributes 0. -/
def fleet_blocked_total (runs : List Run) : ℕ :=
  (runs.map (fun r => (r.summary.map RunSummary.blocked_count).getD 0)).sum

/-- Sample summary with all statistics present. -/
def summaryA : RunSummary := ⟨4, some (3/4), some 120, 1, none⟩

/-- Sample summary whose means are null. -/
def summaryB : RunSummary := ⟨6, none, none, 2, none⟩

/-- Sample run carrying `summaryA`. -/
def runA : Run := ⟨"20240102-000000", some 4, some "2024-01-02T00:00:00Z", some summaryA⟩

/-- Sample run carrying `summaryB`. -/
def runB : Run := ⟨"20240101-000000", some 6, some "2024-01-01T00:00:00Z", some summaryB⟩

/-- Sample run carrying no summary at all. -/
def nullRun : Run := ⟨"20240103-000000", some 5, none, none⟩

/-- Sample fleet window. -/
def demoFleet : List Run := [runA, runB]

/-- Shallow model of a JSON value as produced by `json.load`: `int` covers
JSON integers, `num` covers JSON floats — a float may carry an integral value,
as in `2000.0`. -/
inductive JsonVal where
  | null
  | bool (b : Bool)
  | int (n : ℤ)
  | num (q : ℚ)
  | str (s : String)
  | arr (elems : List JsonVal)
  | obj (members : List (String × JsonVal))

/-- Lookup of a key in a parsed JSON object.  `json.load` builds a `dict`, in
which a duplicated key keeps its last occurrence, hence the `reverse`. -/
def lookupJson (k : String) (members : List (String × JsonVal)) : Option JsonVal :=
  members.reverse.lookup k

/-- Model of the `EvaluationPolicy` pydantic model (policy.py 8-18): exactly
the five schema fields. -/
structure EvaluationPolicy where
  max_latency_ms : ℤ
  require_accuracy : Bool
  enable_toxicity : Bool
  toxicity_threshold : ℚ
  enable_pii : Bool
deriving DecidableEq

/-- The five field names of the policy schema. -/
def policyFieldNames : List String :=
  ["max_latency_ms", "require_accuracy", "enable_toxicity",
   "toxicity_threshold", "enable_pii"]

/-- Value of a non-empty all-digit character list, read in base 10. -/
def digitsToNat (cs : List Char) : Option ℕ :=
  if cs ≠ [] ∧ cs.all Char.isDigit then
    some (cs.foldl (fun acc c => acc * 10 + (c.toNat - 48)) 0)
  else none

/-- Integer denoted by a character list: an optional sign followed by decimal
digits, as accepted by a Python `int(...)` of a clean numeric string. -/
def parseIntChars : List Char → Option ℤ
  | '-' :: rest => (digitsToNat rest).map (fun n => -(n : ℤ))
  | '+' :: rest => (digitsToNat rest).map (fun n => (n : ℤ))
  | cs => (digitsToNat cs).map (fun n => (n : ℤ))

/-- Unsigned decimal notation `digits` or `digits.digits`. -/
def parseFracChars (cs : List Char) : Option ℚ :=
  match cs.splitOn '.' with
  | [whole] => (digitsToNat whole).map (fun n => (n : ℚ))
  | [whole, frac] =>
      match digitsToNat whole, digitsToNat frac with
      | some w, some f => some ((w : ℚ) + (f : ℚ) / (10 : ℚ) ^ frac.length)
      | _, _ => none
  | _ => none

/-- Rational denoted by a character list in plain decimal notation with an
optional sign. -/
def parseFloatChars : List Char → Option ℚ
  | '-' :: rest => (parseFracChars rest).map (fun q => -q)
  | '+' :: rest => parseFracChars rest
  | cs => parseFracChars cs

/-- The truth words pydantic recognises for a lax `bool`, after lowercasing:
0/off/f/false/n/no and 1/on/t/true/y/yes. -/
def boolOfChars (cs : List Char) : Option Bool :=
  if cs = "0".data ∨ cs = "off".data ∨ cs = "f".data ∨ cs = "false".data
      ∨ cs = "n".data ∨ cs = "no".data then some false
  else if cs = "1".data ∨ cs = "on".data ∨ cs = "t".data ∨ cs = "true".data
      ∨ cs = "y".data ∨ cs = "yes".data then some true
  else none

/-- Lax (default-mode) pydantic validation of an `int` field: accepts a JSON
integer, a float carrying an integral value, and a decimal numeric string;
rejects booleans, null, fractional floats, non-numeric strings, arrays and
objects.  (Pydantic additionally tolerates surrounding whitespace and digit
underscores in strings; that tolerance is not modelled.) -/
def validateIntField : JsonVal → Option ℤ
  | .int n => some n
  | .num q => if q.den = 1 then some q.num else none
  | .str s => parseIntChars s.data
  | _ => none

/-- Lax (default-mode) pydantic validation of a `bool` field: accepts a JSON
boolean, the numbers 0 and 1, and the recognised truth-word strings,
case-insensitively; everything else is rejected. -/
def validateBoolField : JsonVal → Option Bool
  | .bool b => some b
  | .int n => if n = 0 then some false else if n = 1 then some true else none
  | .num q => if q = 0 then some false else if q = 1 then some true else none
  | .str s => boolOfChars (s.data.map Char.toLower)
  | _ => none

/-- Lax (default-mode) pydantic validation of a `float` field: accepts JSON
numbers and decimal numeric strings (exponent notation and the special values
inf/nan are not modelled); rejects booleans, null, arrays and objects. -/
def validateFloatField : JsonVal → Option ℚ
  | .int n => some (n : ℚ)
  | .num q => some q
  | .str s => parseFloatChars s.data
  | _ => none

/-- Validation of one schema field: an absent key takes the declared default,
a present key must pass its type validator. -/
def fieldValue {a : Type} (validate : JsonVal → Option a) (dflt : a)
    (k : String) (members : List (String × JsonVal)) : Option a :=
  match lookupJson k members with
  | none => some dflt
  | some j => validate j

/-- Model of `EvaluationPolicy(**data)` for a JSON object `data`: pydantic
rejects any key outside the schema (`extra = "forbid"`, policy.py 17-18),
validates each present field against its declared type and fills absent fields
with their declared defaults (policy.py 11-15). -/
def validatePolicyObj (members : List (String × JsonVal)) : Option EvaluationPolicy :=
  if members.all (fun kv => policyFieldNames.contains kv.1) then
    match fieldValue validateIntField 2000 "max_latency_ms" members,
          fieldValue validateBoolField true "require_accuracy" members,
          fieldValue validateBoolField true "enable_toxicity" members,
          fieldValue validateFloatField (1/2) "toxicity_threshold" members,
          fieldValue validateBoolField false "enable_pii" members with
    | some ml, some ra, some et, some tt, some ep => some ⟨ml, ra, et, tt, ep⟩
    | _, _, _, _, _ => none
  else none

/-- The state of the policy file `load_policy` is pointed at: absent, present
but not valid JSON, or present with a parsed JSON value. -/
inductive PolicySource where
  | missing
  | invalidJson
  | parsed (j : JsonVal)

/-- Failure modes of `load_policy` (policy.py 21-44): `FileNotFoundError`
(line 35), `ValueError` for invalid JSON (line 42), `ValueError` wrapping any
validation failure (line 44). -/
inductive PolicyLoadError where
  | notFound
  | invalidJson
  | validationError
deriving DecidableEq

/-- Model of `load_policy` (policy.py 21-44).  A parsed top-level value that is
not a JSON object makes `EvaluationPolicy(**data)` raise, which line 44 turns
into a `ValueError`, hence `validationError`. -/
def load_policy : PolicySource → Except PolicyLoadError EvaluationPolicy
  | .missing => .error .notFound
  | .invalidJson => .error .invalidJson
  | .parsed (.obj members) =>
      match validatePolicyObj members with
      | some p => .ok p
      | none => .error .validationError
  | .parsed _ => .error .validationError

/-- Outcome of one HTTP request to the Ollama backend: either
`requests` raised a `RequestException` (connection error, timeout, ...), or a
response arrived with a status code and a body; `none` stands for a body that
is not decodable as JSON. -/
inductive NetResult where
  | failure (msg : String)
  | response (status : ℕ) (body : Option JsonVal)

/-- Model of `model.get("name", "").split(":")[0]` followed by the `if name:`
check (providers.py 121-124): a model entry that is not a dict, or whose
`name` value is not a string, raises an `AttributeError`; an empty base name
is skipped (`none`). -/
def extractModelName : JsonVal → Except String (Option String)
  | .obj ms =>
      match (lookupJson "name" ms).getD (.str "") with
      | .str s =>
          let base := (s.splitOn ":").headD ""
          .ok (if base = "" then none else some base)
      | _ => .error "AttributeError"
  | _ => .error "AttributeError"

/-- The `for model in ...` accumulation loop of providers.py 121-124. -/
def collectModelNames : List JsonVal → Except String (List String)
  | [] => .ok []
  | j :: rest => do
      let base ← extractModelName j
      let others ← collectModelNames rest
      match base with
      | some nm => .ok (nm :: others)
      | none => .ok others

/-- Python `sorted` on a list of strings. -/
def sortStrings (xs : List String) : List String :=
  List.insertionSort (fun a b => a ≤ b) xs

/-- Model of `OllamaProvider.list_models` (providers.py 113-129).  Every
`requests.RequestException` — a network failure, the `HTTPError` raised by
`raise_for_status()` on a 4xx/5xx status, or the requests `JSONDecodeError`
raised by `response.json()` — is caught by line 128 and turned into `[]`.
`data.get("models", [])` on a non-dict payload raises `AttributeError`, and
iterating a non-sequence `models` value raises `TypeError`; neither is a
`RequestException`, so those escape (modelled as `Except.error`).  Iterating a
non-empty string or dict yields strings, on which `model.get` raises
`AttributeError`. -/
def list_models : NetResult → Except String (List String)
  | .failure _ => .ok []
  | .response status body =>
      if 400 ≤ status ∧ status ≤ 599 then .ok []
      else
        match body with
        | none => .ok []
        | some (.obj members) =>
            match (lookupJson "models" members).getD (.arr []) with
            | .arr xs => (collectModelNames xs).map sortStrings
            | .str s => if s = "" then .ok [] else .error "AttributeError"
            | .obj [] => .ok []
            | .obj (_ :: _) => .error "AttributeError"
            | _ => .error "TypeError"
        | some _ => .error "AttributeError"

/-- Model of `OllamaProvider.is_available` (providers.py 131-137): true
exactly when the request succeeds with status code 200; any
`RequestException` yields false. -/
def is_available : NetResult → Bool
  | .failure _ => false
  | .response status _ => status == 200

/-- The fields of a run's `meta.json` that the dashboard reads. -/
structure MetaData where
  total_prompts : Option ℕ
  start_time : Option String
deriving DecidableEq

/-- State of a run directory's `meta.json` file: absent, present but
unparseable (the `json.load` of line 98 raises and line 112 catches), or
parsed. -/
inductive MetaFile where
  | absent
  | corrupt
  | good (m : MetaData)
deriving DecidableEq

/-- One entry yielded by iterating the runs directory.  `results` is `none`
when `results.jsonl` does not exist, otherwise the list of records
`load_results` returns (that function catches its own errors, so it is
total). -/
structure DirEntry where
  name : String
  isDir : Bool
  meta : MetaFile
  results : Option (List EvalRecord)
deriving DecidableEq

/-- One iteration of the loop body of `get_recent_runs` (dashboard.py 88-107):
skip non-directories, skip a directory whose `meta.json` is missing, skip (via
the `except` of line 112) one whose `meta.json` does not parse, and otherwise
build the run dictionary, attaching a computed summary exactly when
`results.jsonl` exists. -/
def dirToRun (e : DirEntry) : Option Run :=
  if e.isDir then
    match e.meta with
    | .good m =>
        some ⟨e.name, m.total_prompts, m.start_time,
              e.results.map calculate_run_summary⟩
    | _ => none
  else none

/-- Python `sorted(self.runs_dir.iterdir(), reverse=True)` (dashboard.py 88):
paths share the parent directory, so they compare by entry name, and Python
compares strings lexicographically by code point — the order of the character
lists `name.data`. -/
def sortByNameDesc (entries : List DirEntry) : List DirEntry :=
  List.insertionSort (fun a b => b.name.data ≤ a.name.data) entries

/-- The `for run_dir in ...` loop of dashboard.py 88-114 with its accumulator
`runs`; the `if len(runs) >= limit: break` of lines 109-110 runs only after a
run has been appended. -/
def scan_loop (limit : ℕ) : List DirEntry → List Run → List Run
  | [], acc => acc
  | e :: rest, acc =>
      match dirToRun e with
      | none => scan_loop limit rest acc
      | some r =>
          if limit ≤ acc.length + 1 then acc ++ [r]
          else scan_loop limit rest (acc ++ [r])

/-- Model of `GuardrailsHandler.get_recent_runs` (dashboard.py 82-116). -/
def get_recent_runs (limit : ℕ) (entries : List DirEntry) : List Run :=
  scan_loop limit (sortByNameDesc entries) []

/-- Model of `GuardrailsHandler.get_dashboard_stats` (dashboard.py 143-182)
end to end: aggregate over the window `get_recent_runs(limit=50)`. -/
def get_dashboard_stats (entries : List DirEntry) : FleetStats :=
  dashboard_stats_of (get_recent_runs 50 entries)

instance : IsTrans DirEntry (fun a b => b.name.data ≤ a.name.data) :=
  ⟨fun _ _ _ h1 h2 => le_trans h2 h1⟩

instance : IsTotal DirEntry (fun a b => b.name.data ≤ a.name.data) :=
  ⟨fun a b => le_total b.name.data a.name.data⟩

/-- Sample metadata of the oldest run directory. -/
def scanMetaOld : MetaData := ⟨some 2, some "2024-01-01T09:00:00Z"⟩

/-- Sample metadata of the newest run directory. -/
def scanMetaNew : MetaData := ⟨some 1, some "2024-01-03T09:00:00Z"⟩

/-- Oldest sample run directory: has `meta.json`, no `results.jsonl`. -/
def scanDirOldest : DirEntry := ⟨"20240101-090000", true, .good scanMetaOld, none⟩

/-- Middle sample run directory: missing `meta.json`. -/
def scanDirNoMeta : DirEntry := ⟨"20240102-090000", true, .absent, some []⟩

/-- Newest sample run directory: has `meta.json` and an empty `results.jsonl`. -/
def scanDirNewest : DirEntry := ⟨"20240103-090000", true, .good scanMetaNew, some []⟩

/-- The run produced for `scanDirNewest`. -/
def scanRunNewest : Run :=
  ⟨"20240103-090000", some 1, some "2024-01-03T09:00:00Z", some ⟨0, none, none, 0, none⟩⟩

/-- The run produced for `scanDirOldest`. -/
def scanRunOldest : Run :=
  ⟨"20240101-090000", some 2, some "2024-01-01T09:00:00Z", none⟩

theorem fleet_accuracies_append (xs ys : List Run) :
    fleet_accuracies (xs ++ ys) = fleet_accuracies xs ++ fleet_accuracies ys :=
  List.filterMap_append xs ys _

theorem fleet_latencies_append (xs ys : List Run) :
    fleet_latencies (xs ++ ys) = fleet_latencies xs ++ fleet_latencies ys :=
  List.filterMap_append xs ys _

theorem fleet_blocked_counts_append (xs ys : List Run) :
    fleet_blocked_counts (xs ++ ys)
      = fleet_blocked_counts xs ++ fleet_blocked_counts ys := by
  simp [fleet_blocked_counts, List.filterMap_append]

theorem fleet_blocked_counts_sum (runs : List Run) :
    (fleet_blocked_counts runs).sum = fleet_blocked_total runs := by
  induction runs with
  | nil => rfl
  | cons r rest ih =>
      cases h : r.summary with
      | none =>
          simp [fleet_blocked_counts, fleet_blocked_total, h] at ih ⊢
          simpa [fleet_blocked_counts, fleet_blocked_total] using ih
      | some s =>
          simp [fleet_blocked_counts, fleet_blocked_total, h] at ih ⊢
          simpa [fleet_blocked_counts, fleet_blocked_total] using ih

/-- C1: for every sequence of evaluation records, the run summary's
`accuracy_rate` is the arithmetic mean of the non-null `accuracy` values (null
when there are none) and `avg_latency_ms` is the arithmetic mean of the
non-null `latency_ms` values (null when there are none); null fields are
excluded from the mean, never counted as 0 — in particular, for 3 records with
latencies [100, 200, null], `avg_latency_ms` is 150. -/
theorem c1_summary_means_exclude_null (results : List EvalRecord) :
    (calculate_run_summary results).accuracy_rate
        = meanOpt (results.filterMap EvalRecord.accuracy)
    ∧ (calculate_run_summary results).avg_latency_ms
        = meanOpt (results.filterMap EvalRecord.latency_ms)
    ∧ (calculate_run_summary latencyScenario).avg_latency_ms = some 150 := by
  refine ⟨?_, ?_, ?_⟩
  · by_cases h : results = [] <;> simp [calculate_run_summary, meanOpt, h]
  · by_cases h : results = [] <;> simp [calculate_run_summary, meanOpt, h]
  · show (calculate_run_summary latencyScenario).avg_latency_ms = some 150
    simp [calculate_run_summary, latencyScenario, latencyRecord]
    norm_num

/-- C2: for every non-empty sequence of evaluation records, `total_prompts` is
the number of records and `blocked_count` is the number of records whose
`blocked` field is true. -/
theorem c2_summary_counts (results : List EvalRecord) (h : results ≠ []) :
    (calculate_run_summary results).total_prompts = results.length
    ∧ (calculate_run_summary results).blocked_count
        = results.countP (fun r => r.blocked = some true) := by
  constructor
  · simp [calculate_run_summary, h]
  · simp only [calculate_run_summary, if_neg h]
    refine List.countP_congr (fun r _ => ?_)
    cases hb : r.blocked with
    | none => simp
    | some b => cases b <;> simp

/-- Witness for C2 at the concrete three-record scenario. -/
theorem c2_summary_counts_witness :
    (calculate_run_summary latencyScenario).total_prompts = latencyScenario.length
    ∧ (calculate_run_summary latencyScenario).blocked_count
        = latencyScenario.countP (fun r => r.blocked = some true) :=
  c2_summary_counts latencyScenario (by decide)

/-- C3: summarizing an empty record sequence returns exactly
`{total_prompts: 0, accuracy_rate: null, avg_latency_ms: null,
blocked_count: 0, avg_toxicity: null}` (the function is total, so no error is
possible). -/
theorem c3_empty_summary :
    calculate_run_summary [] = ⟨0, none, none, 0, none⟩ := rfl

/-- C4: for every window of runs, `violation_rate` equals the sum of per-run
`blocked_count` divided by the total evaluation count (the sum of
`total_prompts` across runs), and it is 0 when the total evaluation count is 0
(the function is total, so no division error is possible). -/
theorem c4_violation_rate (runs : List Run) :
    (fleet_total_evaluations runs = 0 →
        (dashboard_stats_of runs).violation_rate = 0)
    ∧ (0 < fleet_total_evaluations runs →
        (dashboard_stats_of runs).violation_rate
          = (fleet_blocked_total runs : ℚ) / (fleet_total_evaluations runs : ℚ)) := by
  constructor
  · intro h
    by_cases hr : runs = [] <;> simp [dashboard_stats_of, hr, h]
  · intro h
    have hr : runs ≠ [] := by
      rintro rfl
      simp [fleet_total_evaluations] at h
    simp [dashboard_stats_of, hr, h, fleet_blocked_counts_sum]

/-- Witness for C4: one window with evaluations, one without. -/
theorem c4_violation_rate_witness :
    (dashboard_stats_of demoFleet).violation_rate
        = (fleet_blocked_total demoFleet : ℚ) / (fleet_total_evaluations demoFleet : ℚ)
    ∧ (dashboard_stats_of []).violation_rate = 0 :=
  ⟨(c4_violation_rate demoFleet).2 (by decide), (c4_violation_rate []).1 rfl⟩

/-- C5: in fleet aggregation, a run whose `accuracy_rate` (resp.
`avg_latency_ms`) is missing — no summary at all — or null is excluded from the
corresponding cross-run mean, never coerced to 0; a run with no summary
contributes 0 to the blocked-count total. -/
theorem c5_null_fields_excluded (runs : List Run) (r : Run) :
    (r.summary.bind RunSummary.accuracy_rate = none →
        (dashboard_stats_of (runs ++ [r])).avg_accuracy
          = (dashboard_stats_of runs).avg_accuracy)
    ∧ (r.summary.bind RunSummary.avg_latency_ms = none →
        (dashboard_stats_of (runs ++ [r])).avg_latency
          = (dashboard_stats_of runs).avg_latency)
    ∧ (r.summary = none →
        (fleet_blocked_counts (runs ++ [r])).sum = (fleet_blocked_counts runs).sum) := by
  refine ⟨fun h => ?_, fun h => ?_, fun h => ?_⟩
  · have hxr : fleet_accuracies (runs ++ [r]) = fleet_accuracies runs := by
      simp [fleet_accuracies_append, fleet_accuracies, h]
    by_cases hr : runs = [] <;>
      simp [dashboard_stats_of, hr, hxr, fleet_accuracies, h]
  · have hxr : fleet_latencies (runs ++ [r]) = fleet_latencies runs := by
      simp [fleet_latencies_append, fleet_latencies, h]
    by_cases hr : runs = [] <;>
      simp [dashboard_stats_of, hr, hxr, fleet_latencies, h]
  · simp [fleet_blocked_counts_append, fleet_blocked_counts, h]

/-- Witness for C5: appending a summaryless run to the sample window changes
neither cross-run mean nor the blocked-count total. -/
theorem c5_null_fields_excluded_witness :
    ((dashboard_stats_of (demoFleet ++ [nullRun])).avg_accuracy
        = (dashboard_stats_of demoFleet).avg_accuracy)
    ∧ ((dashboard_stats_of (demoFleet ++ [nullRun])).avg_latency
        = (dashboard_stats_of demoFleet).avg_latency)
    ∧ ((fleet_blocked_counts (demoFleet ++ [nullRun])).sum
        = (fleet_blocked_counts demoFleet).sum) :=
  ⟨(c5_null_fields_excluded demoFleet nullRun).1 rfl,
   (c5_null_fields_excluded demoFleet nullRun).2.1 rfl,
   (c5_null_fields_excluded demoFleet nullRun).2.2 rfl⟩

theorem validatePolicyObj_ok_fields (members : List (String × JsonVal))
    (p : EvaluationPolicy) (hv : validatePolicyObj members = some p) :
    fieldValue validateIntField 2000 "max_latency_ms" members = some p.max_latency_ms
    ∧ fieldValue validateBoolField true "require_accuracy" members = some p.require_accuracy
    ∧ fieldValue validateBoolField true "enable_toxicity" members = some p.enable_toxicity
    ∧ fieldValue validateFloatField (1/2) "toxicity_threshold" members = some p.toxicity_threshold
    ∧ fieldValue validateBoolField false "enable_pii" members = some p.enable_pii := by
  rw [validatePolicyObj] at hv
  by_cases hall : members.all (fun kv => policyFieldNames.contains kv.1) = true
  · rw [if_pos hall] at hv
    cases h1 : fieldValue validateIntField 2000 "max_latency_ms" members with
    | none => rw [h1] at hv; exact Option.noConfusion hv
    | some ml =>
    rw [h1] at hv
    cases h2 : fieldValue validateBoolField true "require_accuracy" members with
    | none => rw [h2] at hv; exact Option.noConfusion hv
    | some ra =>
    rw [h2] at hv
    cases h3 : fieldValue validateBoolField true "enable_toxicity" members with
    | none => rw [h3] at hv; exact Option.noConfusion hv
    | some et =>
    rw [h3] at hv
    cases h4 : fieldValue validateFloatField (1/2) "toxicity_threshold" members with
    | none => rw [h4] at hv; exact Option.noConfusion hv
    | some tt =>
    rw [h4] at hv
    cases h5 : fieldValue validateBoolField false "enable_pii" members with
    | none => rw [h5] at hv; exact Option.noConfusion hv
    | some ep =>
    rw [h5] at hv
    obtain rfl : (⟨ml, ra, et, tt, ep⟩ : EvaluationPolicy) = p := Option.some.inj hv
    exact ⟨rfl, rfl, rfl, rfl, rfl⟩
  · rw [if_neg hall] at hv
    exact Option.noConfusion hv

theorem load_policy_obj_cases (members : List (String × JsonVal)) :
    (∃ p, validatePolicyObj members = some p
        ∧ load_policy (.parsed (.obj members)) = .ok p)
    ∨ (validatePolicyObj members = none
        ∧ load_policy (.parsed (.obj members)) = .error .validationError) := by
  cases hv : validatePolicyObj members with
  | none => exact Or.inr ⟨rfl, by simp [load_policy, hv]⟩
  | some p => exact Or.inl ⟨p, rfl, by simp [load_policy, hv]⟩

theorem load_policy_error_of_field {members : List (String × JsonVal)}
    (h : fieldValue validateIntField 2000 "max_latency_ms" members = none
       ∨ fieldValue validateBoolField true "require_accuracy" members = none
       ∨ fieldValue validateBoolField true "enable_toxicity" members = none
       ∨ fieldValue validateFloatField (1/2) "toxicity_threshold" members = none
       ∨ fieldValue validateBoolField false "enable_pii" members = none) :
    load_policy (.parsed (.obj members)) = .error .validationError := by
  rcases load_policy_obj_cases members with ⟨p, hv, _⟩ | ⟨_, he⟩
  · obtain ⟨h1, h2, h3, h4, h5⟩ := validatePolicyObj_ok_fields members p hv
    rcases h with h | h | h | h | h
    · rw [h] at h1; exact Option.noConfusion h1
    · rw [h] at h2; exact Option.noConfusion h2
    · rw [h] at h3; exact Option.noConfusion h3
    · rw [h] at h4; exact Option.noConfusion h4
    · rw [h] at h5; exact Option.noConfusion h5
  · exact he

/-- C6 counterexample: the claim says a field of the wrong type makes the
load fail, but pydantic validates in lax mode, which coerces the numeric
string "1500" and the integral float 2000.0 to the `int` field
`max_latency_ms` — both policies load successfully instead of failing. -/
theorem c6_counterexample_lax_coercion :
    load_policy (.parsed (.obj [("max_latency_ms", .str "1500")]))
        = .ok ⟨1500, true, true, 1/2, false⟩
    ∧ load_policy (.parsed (.obj [("max_latency_ms", .num 2000)]))
        = .ok ⟨2000, true, true, 1/2, false⟩ := ⟨rfl, rfl⟩

/-- C6 (amended): loading a policy file fails whenever the file does not
exist, the file is not valid JSON, the JSON object has an unrecognized key,
or a present field's value is one that pydantic's lax validation cannot
coerce to the declared field type — while a wrong-typed but coercible value
(a numeric string or integral float for the `int` field, 0/1 or a truth-word
string for a `bool` field, a numeric string for the `float` field) loads
successfully rather than failing.  The result is an `Except`, so failure
never yields a partial policy.  On success the result carries exactly the
five schema fields, and every field absent from the file takes its declared
default. -/
theorem c6_amended_policy_load_lax :
    load_policy .missing = .error .notFound
    ∧ load_policy .invalidJson = .error .invalidJson
    ∧ (∀ members kv, kv ∈ members → policyFieldNames.contains kv.1 = false →
        load_policy (.parsed (.obj members)) = .error .validationError)
    ∧ (∀ members j, lookupJson "max_latency_ms" members = some j →
        validateIntField j = none →
        load_policy (.parsed (.obj members)) = .error .validationError)
    ∧ (∀ members j, lookupJson "require_accuracy" members = some j →
        validateBoolField j = none →
        load_policy (.parsed (.obj members)) = .error .validationError)
    ∧ (∀ members j, lookupJson "enable_toxicity" members = some j →
        validateBoolField j = none →
        load_policy (.parsed (.obj members)) = .error .validationError)
    ∧ (∀ members j, lookupJson "toxicity_threshold" members = some j →
        validateFloatField j = none →
        load_policy (.parsed (.obj members)) = .error .validationError)
    ∧ (∀ members j, lookupJson "enable_pii" members = some j →
        validateBoolField j = none →
        load_policy (.parsed (.obj members)) = .error .validationError)
    ∧ load_policy (.parsed (.obj [])) = .ok ⟨2000, true, true, 1/2, false⟩
    ∧ (∀ members p, load_policy (.parsed (.obj members)) = .ok p →
        (lookupJson "max_latency_ms" members = none → p.max_latency_ms = 2000)
        ∧ (lookupJson "require_accuracy" members = none → p.require_accuracy = true)
        ∧ (lookupJson "enable_toxicity" members = none → p.enable_toxicity = true)
        ∧ (lookupJson "toxicity_threshold" members = none → p.toxicity_threshold = 1/2)
        ∧ (lookupJson "enable_pii" members = none → p.enable_pii = false)) := by
  refine ⟨rfl, rfl, ?_, ?_, ?_, ?_, ?_, ?_, rfl, ?_⟩
  · intro members kv hkv hnotin
    have hall : members.all (fun kv => policyFieldNames.contains kv.1) ≠ true := by
      intro hforall
      rw [List.all_eq_true] at hforall
      have h2 := hforall kv hkv
      simp only [hnotin] at h2
      exact Bool.noConfusion h2
    have hnone : validatePolicyObj members = none := by
      rw [validatePolicyObj, if_neg hall]
    rcases load_policy_obj_cases members with ⟨p, hp, _⟩ | ⟨_, he⟩
    · rw [hnone] at hp
      exact Option.noConfusion hp
    · exact he
  · intro members j hl hb
    exact load_policy_error_of_field (Or.inl (by simp [fieldValue, hl, hb]))
  · intro members j hl hb
    exact load_policy_error_of_field (Or.inr (Or.inl (by simp [fieldValue, hl, hb])))
  · intro members j hl hb
    exact load_policy_error_of_field (Or.inr (Or.inr (Or.inl (by simp [fieldValue, hl, hb]))))
  · intro members j hl hb
    exact load_policy_error_of_field
      (Or.inr (Or.inr (Or.inr (Or.inl (by simp [fieldValue, hl, hb])))))
  · intro members j hl hb
    exact load_policy_error_of_field
      (Or.inr (Or.inr (Or.inr (Or.inr (by simp [fieldValue, hl, hb])))))
  · intro members p hp
    have hv : validatePolicyObj members = some p := by
      rcases load_policy_obj_cases members with ⟨q, hq, hload⟩ | ⟨_, hload⟩
      · rw [hload] at hp
        exact (Except.ok.inj hp) ▸ hq
      · rw [hload] at hp
        exact Except.noConfusion hp
    have hf := validatePolicyObj_ok_fields members p hv
    refine ⟨fun hn => ?_, fun hn => ?_, fun hn => ?_, fun hn => ?_, fun hn => ?_⟩
    · have h1 := hf.1
      rw [fieldValue, hn] at h1
      exact (Option.some.inj h1).symm
    · have h2 := hf.2.1
      rw [fieldValue, hn] at h2
      exact (Option.some.inj h2).symm
    · have h3 := hf.2.2.1
      rw [fieldValue, hn] at h3
      exact (Option.some.inj h3).symm
    · have h4 := hf.2.2.2.1
      rw [fieldValue, hn] at h4
      exact (Option.some.inj h4).symm
    · have h5 := hf.2.2.2.2
      rw [fieldValue, hn] at h5
      exact (Option.some.inj h5).symm

/-- Witness for the amended C6: an unknown key fails, a non-coercible
`max_latency_ms` fails, and loading with only `enable_pii` set leaves
`max_latency_ms` at its default 2000. -/
theorem c6_amended_witness :
    load_policy (.parsed (.obj [("mystery_field", .int 1)])) = .error .validationError
    ∧ load_policy (.parsed (.obj [("max_latency_ms", .str "soon")]))
        = .error .validationError
    ∧ (⟨2000, true, true, 1/2, true⟩ : EvaluationPolicy).max_latency_ms = 2000 :=
  ⟨c6_amended_policy_load_lax.2.2.1 _ ("mystery_field", .int 1) (by simp) rfl,
   c6_amended_policy_load_lax.2.2.2.1 _ (.str "soon") rfl rfl,
   (c6_amended_policy_load_lax.2.2.2.2.2.2.2.2.2 [("enable_pii", .bool true)]
      ⟨2000, true, true, 1/2, true⟩ rfl).1 rfl⟩

/-- C7 counterexample: the claim says a policy file whose `max_latency_ms` is
zero or negative must fail to load; the pydantic field `max_latency_ms : int`
(policy.py 11) carries no positivity constraint, so loading succeeds and
returns the non-positive value. -/
theorem c7_counterexample_nonpositive_accepted :
    load_policy (.parsed (.obj [("max_latency_ms", .int 0)]))
        = .ok ⟨0, true, true, 1/2, false⟩
    ∧ load_policy (.parsed (.obj [("max_latency_ms", .int (-250))]))
        = .ok ⟨-250, true, true, 1/2, false⟩ := ⟨rfl, rfl⟩

/-- C7 (amended): `max_latency_ms` is a plain integer field with default 2000
and no positivity constraint — a policy file whose `max_latency_ms` is zero or
negative loads successfully and the returned policy carries that value. -/
theorem c7_amended_no_positivity_constraint (n : ℤ) (_h : n ≤ 0) :
    load_policy (.parsed (.obj [("max_latency_ms", .int n)]))
      = .ok ⟨n, true, true, 1/2, false⟩ := rfl

/-- Witness for the amended C7 at `max_latency_ms = -7`. -/
theorem c7_amended_witness :
    load_policy (.parsed (.obj [("max_latency_ms", .int (-7))]))
      = .ok ⟨-7, true, true, 1/2, false⟩ :=
  c7_amended_no_positivity_constraint (-7) (by decide)

/-- C8: the provider probes never throw on network failure — when the backend
request fails, `list_models` returns the empty list and `is_available`
returns false, whatever the underlying network error was. -/
theorem c8_probes_never_throw_on_network_failure (msg : String) :
    list_models (.failure msg) = .ok [] ∧ is_available (.failure msg) = false :=
  ⟨rfl, rfl⟩

theorem scan_loop_spec (limit : ℕ) :
    ∀ (rest : List DirEntry) (acc : List Run), acc.length < limit →
      scan_loop limit rest acc
        = acc ++ (rest.filterMap dirToRun).take (limit - acc.length) := by
  intro rest
  induction rest with
  | nil => intro acc _; simp [scan_loop]
  | cons e rest ih =>
      intro acc hacc
      cases hdr : dirToRun e with
      | none =>
          simp only [scan_loop, hdr]
          rw [ih acc hacc]
          simp [List.filterMap_cons, hdr]
      | some r =>
          by_cases hl : limit ≤ acc.length + 1
          · have heq : limit - acc.length = 1 := by omega
            simp only [scan_loop, hdr, if_pos hl]
            rw [List.filterMap_cons, hdr, heq]
            simp
          · have hacc2 : (acc ++ [r]).length < limit := by
              simp only [List.length_append, List.length_singleton]
              omega
            simp only [scan_loop, hdr, if_neg hl]
            rw [ih (acc ++ [r]) hacc2]
            have heq : limit - acc.length = (limit - (acc.length + 1)) + 1 := by omega
            rw [List.filterMap_cons, hdr, heq]
            simp [List.take_succ_cons, List.length_append]

theorem scan_loop_zero_length :
    ∀ (rest : List DirEntry) (acc : List Run),
      (scan_loop 0 rest acc).length ≤ acc.length + 1 := by
  intro rest
  induction rest with
  | nil => intro acc; simp [scan_loop]
  | cons e rest ih =>
      intro acc
      cases hdr : dirToRun e with
      | none => simp only [scan_loop, hdr]; exact ih acc
      | some r => simp [scan_loop, hdr]

theorem dirToRun_run_id (e : DirEntry) (r : Run) (h : dirToRun e = some r) :
    r.run_id = e.name := by
  unfold dirToRun at h
  by_cases hd : e.isDir = true
  · rw [if_pos hd] at h
    cases hm : e.meta with
    | absent => rw [hm] at h; exact Option.noConfusion h
    | corrupt => rw [hm] at h; exact Option.noConfusion h
    | good m =>
        rw [hm] at h
        obtain rfl := Option.some.inj h
        rfl
  · rw [if_neg hd] at h
    exact Option.noConfusion h

theorem filterMap_dirToRun_pairwise :
    ∀ (l : List DirEntry),
      l.Pairwise (fun a b => b.name.data ≤ a.name.data) →
      (l.filterMap dirToRun).Pairwise (fun a b : Run => b.run_id ≤ a.run_id) := by
  intro l
  induction l with
  | nil => intro _; simp
  | cons e rest ih =>
      intro hp
      rw [List.pairwise_cons] at hp
      obtain ⟨hhead, htail⟩ := hp
      cases hdr : dirToRun e with
      | none => simpa [List.filterMap_cons, hdr] using ih htail
      | some r =>
          rw [List.filterMap_cons, hdr]
          refine List.Pairwise.cons ?_ (ih htail)
          intro r2 hr2
          rw [List.mem_filterMap] at hr2
          obtain ⟨e2, he2, hde2⟩ := hr2
          rw [dirToRun_run_id e r hdr, dirToRun_run_id e2 r2 hde2]
          exact String.le_iff_toList_le.mpr (hhead e2 he2)

theorem sortByNameDesc_sorted (entries : List DirEntry) :
    (sortByNameDesc entries).Pairwise (fun a b => b.name.data ≤ a.name.data) := by
  have h := List.sorted_insertionSort
    (fun a b : DirEntry => b.name.data ≤ a.name.data) entries
  exact h

/-- C9 (amended): the run-discovery scan returns exactly the valid run
directories — those that are directories whose `meta.json` exists and parses —
in reverse lexicographic directory-name order, truncated to the first `limit`,
for every `limit ≥ 1`; so a run directory missing `meta.json` is skipped
without failing the scan, at most `limit` runs are returned, and the output is
reverse-sorted by run id.  With `limit = 0` the "at most `limit`" bound fails:
the limit check runs only after an append, so up to one run is still returned.
In particular, scanning 3 run directories where one is missing `meta.json`
returns exactly 2 runs in reverse timestamp order. -/
theorem c9_scan_order_skip_limit (entries : List DirEntry) (limit : ℕ)
    (hlim : 1 ≤ limit) :
    get_recent_runs limit entries
        = ((sortByNameDesc entries).filterMap dirToRun).take limit
    ∧ (get_recent_runs limit entries).length ≤ limit
    ∧ (get_recent_runs limit entries).Pairwise (fun a b => b.run_id ≤ a.run_id)
    ∧ (∀ es, (get_recent_runs 0 es).length ≤ 1)
    ∧ get_recent_runs 10 [scanDirOldest, scanDirNoMeta, scanDirNewest]
        = [scanRunNewest, scanRunOldest] := by
  have hmain : get_recent_runs limit entries
      = ((sortByNameDesc entries).filterMap dirToRun).take limit := by
    unfold get_recent_runs
    rw [scan_loop_spec limit (sortByNameDesc entries) [] (by simpa using hlim)]
    simp
  refine ⟨hmain, ?_, ?_, ?_, ?_⟩
  · rw [hmain, List.length_take]
    exact min_le_left _ _
  · rw [hmain]
    exact List.Pairwise.sublist (List.take_sublist _ _)
      (filterMap_dirToRun_pairwise _ (sortByNameDesc_sorted entries))
  · intro es
    unfold get_recent_runs
    simpa using scan_loop_zero_length (sortByNameDesc es) []
  · decide

/-- C9 counterexample to the claim as stated: with `limit = 0` the scan of a
single valid run directory still returns 1 run, which is more than `limit`. -/
theorem c9_counterexample_limit_zero :
    (get_recent_runs 0 [scanDirOldest]).length = 1
    ∧ ¬ ((get_recent_runs 0 [scanDirOldest]).length ≤ 0) := by decide

/-- Witness for the amended C9 at the 3-directory scenario with limit 10. -/
theorem c9_scan_witness :
    get_recent_runs 10 [scanDirOldest, scanDirNoMeta, scanDirNewest]
      = [scanRunNewest, scanRunOldest] :=
  (c9_scan_order_skip_limit [scanDirOldest, scanDirNoMeta, scanDirNewest] 10
    (by decide)).2.2.2.2

/-- C10: a run directory that has `meta.json` but no `results.jsonl` is still
included in the recent-runs listing, and the run object it yields carries no
summary at all. -/
theorem c10_no_results_no_summary (e : DirEntry) (m : MetaData) (limit : ℕ)
    (hdir : e.isDir = true) (hmeta : e.meta = .good m) (hres : e.results = none)
    (hlim : 1 ≤ limit) :
    get_recent_runs limit [e] = [⟨e.name, m.total_prompts, m.start_time, none⟩] := by
  have hrun : dirToRun e = some ⟨e.name, m.total_prompts, m.start_time, none⟩ := by
    simp [dirToRun, hdir, hmeta, hres]
  have hsort : sortByNameDesc [e] = [e] := rfl
  unfold get_recent_runs
  rw [hsort, scan_loop_spec limit [e] [] (by simpa using hlim)]
  rw [List.filterMap_cons, hrun]
  simp only [List.filterMap_nil, Nat.sub_zero, List.nil_append]
  exact List.take_of_length_le (by simpa using hlim)

/-- Witness for C10 at the oldest sample run directory. -/
theorem c10_no_results_no_summary_witness :
    get_recent_runs 10 [scanDirOldest] = [scanRunOldest] :=
  c10_no_results_no_summary scanDirOldest scanMetaOld 10 rfl rfl rfl (by decide)
